import Mathlib

/-!
Verification development for the dcrdex `client/rpcserver` package
(`rpcserver.go`, `types.go`): a shallow embedding of the JSON-RPC
gateway — envelope dispatch, HTTP reply construction, server
construction (TLS bootstrap and credential hashing), the market feed
syncer loop, the shutdown sequence of `Run`, the client transport read
pump and identifier generator, and the command-argument parsing of
`types.go` — together with theorems settling the specification claims.
-/

namespace Rpcserver

/-- Opaque serialized result value carried in a response payload; the
gateway never inspects handler results beyond serializing them. -/
abbrev ResultV := String

/-- Wire-protocol error object: `msgjson.Error`, a code and a message. -/
structure RPCError where
  code : Int
  message : String
deriving DecidableEq, Repr

/-- Modelled from the spec: the `msgjson` envelope codec is an external
collaborator (spec section 6); its error-code space is a fixed enumeration,
of which only distinctness of the codes matters here. Parse-error code. -/
def RPCParseError : Int := 1

/-- Modelled from the spec: the unknown-route code of the `msgjson`
error-code space. -/
def RPCUnknownRoute : Int := 2

/-- Modelled from the spec: `msgjson.NewError` builds an error object from
a code and a message. -/
def newError (code : Int) (msg : String) : RPCError := ⟨code, msg⟩

/-- Modelled from the spec: `RawParams`, the decoded raw parameters of a
request (declared in the repository outside the given sources); the
gateway treats it opaquely and hands it to the route handler. -/
structure RawParams where
  args : List String
deriving DecidableEq, Repr

/-- Abstract raw JSON payload of a request or notification: it either
decodes to `RawParams` or fails to decode. -/
inductive RawJSON where
  | params (p : RawParams)
  | undecodable
deriving DecidableEq, Repr

/-- Envelope type tag: `msgjson.Request`, `msgjson.Response`,
`msgjson.Notification`. -/
inductive MsgType where
  | request
  | response
  | note
deriving DecidableEq, Repr

/-- The `msgjson.ResponsePayload`: an optional result and an optional
error, as produced by `handleRequest` and the route handlers. -/
structure ResponsePayload where
  result : Option ResultV
  error : Option RPCError
deriving DecidableEq, Repr

/-- Payload of an envelope: raw JSON for requests and notifications, a
response payload for responses. -/
inductive MsgPayload where
  | raw (j : RawJSON)
  | resp (p : ResponsePayload)
deriving DecidableEq, Repr

/-- The `msgjson.Message` envelope: type tag, correlation identifier,
route name, payload. -/
structure Message where
  typ : MsgType
  id : Nat
  route : String
  payload : MsgPayload
deriving DecidableEq, Repr

/-- Models `req.Unmarshal(params)`: the payload decodes to raw
parameters, or the decode fails. -/
def decodeParams : MsgPayload → Option RawParams
  | .raw (.params p) => some p
  | _ => none

/-- Modelled from the spec: a SHA-256 digest, idealized as an injective
tag on strings that is never equal to the all-zero digest (the zero value
of `[32]byte`). The `crypto/sha256` library is external to the sources. -/
inductive Hash where
  | zero
  | sha256 (s : String)
deriving DecidableEq, Repr

/-- The server state relevant to dispatch and authentication: the
`RPCServer` struct fields `addr` and `authsha` (the maps start empty). -/
structure RPCServerState where
  addr : String
  authsha : Hash
deriving DecidableEq, Repr

/-- Modelled from the spec: a route handler. The handler functions and
the `routes` table are declared in the repository outside the given
sources; spec section 4.2 fixes their signature as
`(gateway-state, raw-parameters) -> response-or-error`. -/
abbrev Handler := RPCServerState → RawParams → Except RPCError ResultV

/-- The route table: an immutable mapping from route name to handler. -/
abbrev RouteTable := String → Option Handler

/-- Converts a handler outcome (response-or-error) into the
`ResponsePayload` the handler returns to `handleRequest`. -/
def payloadOfOutcome : Except RPCError ResultV → ResponsePayload
  | .ok r => { result := some r, error := none }
  | .error e => { result := none, error := some e }

/-- Embedding of `handleRequest` (rpcserver.go): empty route and unknown
route produce an unknown-route error payload; a parameter decode failure
produces a parse-error payload; otherwise the route handler runs. -/
def handleRequest (routes : RouteTable) (s : RPCServerState) (req : Message) :
    ResponsePayload :=
  if req.route = "" then
    { result := none, error := some (newError RPCUnknownRoute "no route was supplied") }
  else
    match routes req.route with
    | none =>
      { result := none, error := some (newError RPCUnknownRoute "unknown command") }
    | some h =>
      match decodeParams req.payload with
      | none =>
        { result := none, error := some (newError RPCParseError "unable to unmarshal request") }
      | some params => payloadOfOutcome (h s params)

/-- Modelled from the spec: `msgjson.NewResponse` of the external codec
(spec section 6): builds a Response envelope carrying the given
identifier and payload; identifier 0 is reserved and rejected. -/
def NewResponse (id : Nat) (result : Option ResultV) (rpcErr : Option RPCError) :
    Except String Message :=
  if id = 0 then .error "id = 0 is reserved"
  else .ok { typ := .response, id := id, route := "", payload := .resp ⟨result, rpcErr⟩ }

/-- An HTTP-level reply: either a transport-level error written through
`http.Error` (status code and plain-text message), or a JSON-encoded
envelope written through `writeJSON`. -/
inductive HTTPReply where
  | httpError (status : Nat) (msg : String)
  | jsonResponse (resp : Message)
deriving DecidableEq, Repr

/-- True when the reply is a structured (parseable) Response envelope
rather than a transport-level failure. -/
def isStructuredResponse : HTTPReply → Bool
  | .jsonResponse _ => true
  | .httpError _ _ => false

/-- Embedding of `parseHTTPRequest` (rpcserver.go): runs `handleRequest`,
wraps the payload into a Response envelope with the request identifier
via `NewResponse`, and writes it; a `NewResponse` failure is written as
an HTTP 500 transport error. -/
def parseHTTPRequest (routes : RouteTable) (s : RPCServerState) (req : Message) :
    HTTPReply :=
  let payload := handleRequest routes s req
  match NewResponse req.id payload.result payload.error with
  | .error e => .httpError 500 ("error encoding response: " ++ e)
  | .ok resp => .jsonResponse resp

/-- Outcome of reading and decoding an HTTP request body in
`handleJSON`: the body read fails, the body is not a well-formed
envelope, or it decodes to an envelope. -/
inductive Body where
  | unreadable
  | notJSON
  | msg (m : Message)
deriving DecidableEq, Repr

/-- Embedding of `handleJSON` (rpcserver.go): a body read error is HTTP
400, an envelope decode failure is HTTP 422, a non-Request envelope type
is HTTP 405; otherwise the request is dispatched via
`parseHTTPRequest`. -/
def handleJSON (routes : RouteTable) (s : RPCServerState) (b : Body) : HTTPReply :=
  match b with
  | .unreadable => .httpError 400 "error reading request body"
  | .notJSON => .httpError 422 "JSON decode error"
  | .msg m =>
    if m.typ ≠ MsgType.request then .httpError 405 "Responses not accepted"
    else parseHTTPRequest routes s m

/-- A response payload carries exactly one of result and error. -/
def exactlyOneSet (p : ResponsePayload) : Prop :=
  (p.result.isSome ∧ p.error = none) ∨ (p.result = none ∧ p.error.isSome)

/-- A concrete handler used to instantiate theorems: the version route
handler returning a serialized semver result. -/
def versionHandler : Handler := fun _ _ => .ok "0.0.0"

/-- A concrete one-entry route table used to instantiate theorems. -/
def routes0 : RouteTable := fun r => if r = "version" then some versionHandler else none

/-- A concrete server state used to instantiate theorems. -/
def server0 : RPCServerState := { addr := "127.0.0.1:5757", authsha := Hash.zero }

/-- The `Config` struct fields consumed by `New` (the core capability is
irrelevant to the claims about construction). -/
structure Config where
  addr : String
  user : String
  pass : String
  cert : String
  key : String
deriving DecidableEq, Repr

/-- Environment for `New`: the outcomes of the external filesystem,
certificate-generation, TLS-loading, and base64 library calls it makes.
`fileExists` embeds the source `fileExists` (an `os.Stat` probe). -/
structure NewEnv where
  fileExists : String → Bool
  newTLSCertPairOk : Bool
  writeCertOk : Bool
  writeKeyOk : Bool
  loadKeyPairOk : Bool
  base64Encode : String → String

/-- A file written to disk, with its Unix permission mode. -/
structure FileWrite where
  path : String
  mode : Nat
deriving DecidableEq, Repr

/-- True when the mode grants no group or other permissions (the low six
permission bits are all clear). -/
def ownerOnly (mode : Nat) : Bool := mode % 64 == 0

/-- The elliptic curve passed to `certgen.NewTLSCertPair` by
`genCertPair`: `elliptic.P521()`. -/
def certCurve : String := "P521"

/-- Validity period of the generated certificate, in hours: ten years
(`time.Now().Add(10 * 365 * 24 * time.Hour)`). -/
def certValidityHours : Nat := 10 * 365 * 24

/-- Embedding of `genCertPair` (rpcserver.go): generates a pair and
writes the certificate with mode 644 and the key with mode 600; on a
key-write failure the just-written certificate file is removed again
(`os.Remove`), so no write survives a failed run. Returns the outcome
and the list of files left written. -/
def genCertPair (env : NewEnv) (certFile keyFile : String) :
    Except String Unit × List FileWrite :=
  if !env.newTLSCertPairOk then (.error "NewTLSCertPair failed", [])
  else if !env.writeCertOk then (.error "write certFile failed", [])
  else if !env.writeKeyOk then (.error "write keyFile failed", [])
  else (.ok (), [⟨certFile, 0o644⟩, ⟨keyFile, 0o600⟩])

/-- Embedding of `New` (rpcserver.go): if exactly one of the key and
certificate files exists, fail with a missing-pair error; if neither
exists, generate the pair; then load the pair, and hash the credentials
into `authsha` only when both user and password are nonempty (the zero
digest otherwise — the struct's zero value). Returns the outcome and the
list of files written. -/
def New (env : NewEnv) (cfg : Config) :
    Except String RPCServerState × List FileWrite :=
  let keyExists := env.fileExists cfg.key
  let certExists := env.fileExists cfg.cert
  if certExists = !keyExists then (.error "missing cert pair file", [])
  else
    match (if !keyExists && !certExists then genCertPair env cfg.cert cfg.key
           else (.ok (), [])) with
    | (.error e, ws) => (.error e, ws)
    | (.ok _, ws) =>
      if !env.loadKeyPairOk then (.error "LoadX509KeyPair failed", ws)
      else
        (.ok { addr := cfg.addr,
               authsha :=
                 if cfg.user != "" && cfg.pass != "" then
                   Hash.sha256 ("Basic " ++ env.base64Encode (cfg.user ++ ":" ++ cfg.pass))
                 else Hash.zero }, ws)

/-- Outcome of `authMiddleware` for one request: rejected with 401, or
passed through to the next handler. -/
inductive AuthResult where
  | unauthorized
  | admitted
deriving DecidableEq, Repr

/-- Embedding of `authMiddleware` (rpcserver.go): a request with no
Authorization header, or whose first header value does not hash to the
stored digest, is rejected; otherwise it is admitted. -/
def authMiddleware (authsha : Hash) (authHeader : List String) : AuthResult :=
  match authHeader with
  | [] => .unauthorized
  | a :: _ => if authsha ≠ Hash.sha256 a then .unauthorized else .admitted

/-- A fixture environment in which both files exist and every external
call succeeds. -/
def envAllOk : NewEnv :=
  { fileExists := fun _ => true, newTLSCertPairOk := true, writeCertOk := true,
    writeKeyOk := true, loadKeyPairOk := true, base64Encode := fun s => s }

/-- A fixture environment in which neither file exists and every
external call succeeds. -/
def envNoFiles : NewEnv :=
  { envAllOk with fileExists := fun _ => false }

/-- A fixture configuration with no credentials configured. -/
def cfgNoCreds : Config :=
  { addr := "addr", user := "", pass := "", cert := "c", key := "k" }

/-- One select outcome observed by the `marketSyncer.Run` loop: an order
book update arrives on the feed channel (with the outcomes of the
notification encoding and of the client send), or the governing context
is cancelled. -/
inductive SyncEvent where
  | update (encodeOk : Bool) (sendOk : Bool)
  | ctxDone
deriving DecidableEq, Repr

/-- Terminal case of the syncer loop: notification-encoding failure,
send failure to the client, or context cancellation. -/
inductive TermReason where
  | encodeErr
  | sendErr
  | shutdown
deriving DecidableEq, Repr

/-- Embedding of the labelled loop of `marketSyncer.Run` (rpcserver.go),
threading the count of `feed.Close` calls made so far (the loop body
makes none): it consumes select outcomes until a terminal one; `none`
means the given outcomes ran out with the loop still blocked. -/
def syncLoop : List SyncEvent → Nat → Option (TermReason × Nat)
  | [], _ => none
  | .ctxDone :: _, closes => some (.shutdown, closes)
  | .update encodeOk sendOk :: rest, closes =>
    if !encodeOk then some (.encodeErr, closes)
    else if !sendOk then some (.sendErr, closes)
    else syncLoop rest closes

/-- Result of a terminated syncer run: the terminal case and how many
times the feed subscription was released. -/
structure SyncOutcome where
  reason : TermReason
  feedCloses : Nat
deriving DecidableEq, Repr

/-- Embedding of `marketSyncer.Run`: the loop followed by the deferred
`m.feed.Close()`, which runs exactly once when the function returns. -/
def marketSyncerRun (evs : List SyncEvent) : Option SyncOutcome :=
  match syncLoop evs 0 with
  | none => none
  | some (r, closes) => some ⟨r, closes + 1⟩

/-- State of one cancellation-path run of `RPCServer.Run`: whether the
governing context is cancelled, whether `srv.Shutdown` has closed the
listener, whether `srv.Serve` has returned, how many tracked clients
remain to be force-disconnected and how many have been, how many syncer
goroutines are still running, whether the `wg.Wait` join has completed,
and whether the final server-off report has been made. -/
structure RunState where
  ctxCancelled : Bool
  listenerClosed : Bool
  serveReturned : Bool
  clientsLeft : Nat
  clientsDisconnected : Nat
  syncersLeft : Nat
  waited : Bool
  reported : Bool
deriving DecidableEq, Repr

/-- Initial state of `Run` with the given numbers of tracked clients and
live syncer goroutines. -/
def initRunState (nClients nSyncers : Nat) : RunState :=
  { ctxCancelled := false, listenerClosed := false, serveReturned := false,
    clientsLeft := nClients, clientsDisconnected := 0, syncersLeft := nSyncers,
    waited := false, reported := false }

/-- Small-step transitions of `Run` on the cancellation path, with the
interleaving of the shutdown goroutine and the syncer goroutines made
explicit. The guard on `serveReturn` embeds the `http.Server` contract
(an external collaborator): `Serve` returns `ErrServerClosed` only after
`Shutdown` has closed the listener. The guards on `disconnect`, `wait`
and `report` are the statement order of the source, and `wait` requires
every syncer goroutine and the shutdown goroutine to have finished,
which is the `sync.WaitGroup` contract for `wg.Wait`. -/
inductive RunStep : RunState → RunState → Prop where
  | cancel (s : RunState) : s.ctxCancelled = false →
      RunStep s { s with ctxCancelled := true }
  | closeListener (s : RunState) : s.ctxCancelled = true → s.listenerClosed = false →
      RunStep s { s with listenerClosed := true }
  | serveReturn (s : RunState) : s.listenerClosed = true → s.serveReturned = false →
      RunStep s { s with serveReturned := true }
  | disconnect (s : RunState) : s.serveReturned = true → 0 < s.clientsLeft →
      s.waited = false →
      RunStep s { s with clientsLeft := s.clientsLeft - 1,
                         clientsDisconnected := s.clientsDisconnected + 1 }
  | syncerExit (s : RunState) : 0 < s.syncersLeft →
      RunStep s { s with syncersLeft := s.syncersLeft - 1 }
  | wait (s : RunState) : s.serveReturned = true → s.clientsLeft = 0 →
      s.syncersLeft = 0 → s.listenerClosed = true → s.waited = false →
      RunStep s { s with waited := true }
  | report (s : RunState) : s.waited = true → s.reported = false →
      RunStep s { s with reported := true }

/-- Reachability of a `Run` state from a given initial state. -/
inductive RunReachable (s0 : RunState) : RunState → Prop where
  | refl : RunReachable s0 s0
  | step {s t : RunState} : RunReachable s0 s → RunStep s t → RunReachable s0 t

/-- The inductive invariant of the `Run` cancellation path. -/
def runInvariant (n : Nat) (s : RunState) : Prop :=
  s.clientsLeft + s.clientsDisconnected = n
  ∧ (s.listenerClosed = true → s.ctxCancelled = true)
  ∧ (s.serveReturned = true → s.listenerClosed = true)
  ∧ (0 < s.clientsDisconnected → s.serveReturned = true)
  ∧ (s.waited = true → s.serveReturned = true ∧ s.clientsLeft = 0 ∧ s.syncersLeft = 0)
  ∧ (s.reported = true → s.waited = true)

/-- The state at the end of a fully executed shutdown with one client
and one syncer, used to instantiate the ordering theorem. -/
def runFinalState : RunState :=
  { ctxCancelled := true, listenerClosed := true, serveReturned := true,
    clientsLeft := 0, clientsDisconnected := 1, syncersLeft := 0,
    waited := true, reported := true }

/-- Modelled from the spec: an inbound frame seen by the read pump of
the comms `wsConn` (the transport source is not under the given sources;
only its test `TestWsConn` is): a frame that fails to parse as an
envelope, a Response frame with a correlation identifier, or a
Request/Notification frame. -/
inductive Frame where
  | malformed
  | response (id : Nat) (body : String)
  | reqOrNote (route : String) (body : String)
deriving DecidableEq, Repr

/-- Modelled from the spec: the read pump state — the pending-request
table (correlation identifier to registered handler identifier), the
messages delivered so far to the message-source stream, and the response
handler invocations performed so far. -/
structure PumpState where
  pending : List (Nat × Nat)
  delivered : List (String × String)
  invoked : List (Nat × String)
deriving DecidableEq, Repr

/-- Modelled from the spec: processing of one inbound frame by the read
pump (spec section 4.4 read pump): a malformed frame is logged and
dropped, never terminating the connection; a Response is matched by
identifier against the pending table and, if found, removed and
delivered to its handler, otherwise dropped; a Request/Notification is
delivered to the message-source stream. -/
def readFrame (st : PumpState) (f : Frame) : PumpState :=
  match f with
  | .malformed => st
  | .response id body =>
    match st.pending.lookup id with
    | some h =>
      { st with pending := st.pending.filter (fun p => p.1 != id),
                invoked := st.invoked ++ [(h, body)] }
    | none => st
  | .reqOrNote route body => { st with delivered := st.delivered ++ [(route, body)] }

/-- Modelled from the spec: the read pump over a sequence of inbound
frames; no input content terminates it, so it is a fold. -/
def readPump (st : PumpState) (frames : List Frame) : PumpState :=
  frames.foldl readFrame st

/-- Modelled from the spec: the transport identifier generator
`nextID()` — a process-local monotonically increasing counter starting
at 1 (the `wsConn` source is not under the given sources; only its test
is). One call increments the counter and returns it; concurrent callers
are serialized by the atomic increment, so N calls are modelled as N
sequential steps, and wrapping beyond the practical range is left
undefined by the spec and not modelled. -/
def nextID (counter : Nat) : Nat × Nat := (counter + 1, counter + 1)

/-- Iterates `nextID` the given number of times from a counter state,
collecting the returned identifiers. -/
def runNextID : Nat → Nat → List Nat
  | _, 0 => []
  | counter, n + 1 => (nextID counter).1 :: runNextID (nextID counter).2 n

/-- The `openWalletForm` struct of types.go. -/
structure OpenWalletForm where
  assetID : Nat
  appPass : String
deriving DecidableEq, Repr

/-- The `newWalletForm` struct of types.go. -/
structure NewWalletForm where
  assetID : Nat
  account : String
  iniPath : String
  walletPass : String
  appPass : String
deriving DecidableEq, Repr

/-- Modelled from the spec: `core.Registration` (the `client/core`
package is an external collaborator); only its field shape matters. -/
structure Registration where
  password : String
  url : String
  fee : Nat
  cert : String
deriving DecidableEq, Repr

/-- Modelled from the spec: `core.PreRegisterForm` (external
collaborator); only its field shape matters. -/
structure PreRegisterForm where
  url : String
  cert : String
deriving DecidableEq, Repr

/-- The `interface{}` values returned by the argument parsers of
types.go. -/
inductive ParsedValue where
  | nul
  | str (s : String)
  | int (i : Int)
  | newWallet (f : NewWalletForm)
  | openWallet (f : OpenWalletForm)
  | registration (r : Registration)
  | preRegister (f : PreRegisterForm)
deriving DecidableEq, Repr

/-- Errors of the command parsing layer: wrapped `ErrUnknownCmd`,
wrapped `ErrArgs`, other errors (file reads), and the two Go runtime
panics that could in principle arise — out-of-range slice indexing and
calling a function fetched from a map that lacks the key. -/
inductive CmdError where
  | unknownCmd (msg : String)
  | badArgs (msg : String)
  | other (msg : String)
  | panicOutOfRange
  | panicNilHandler
deriving DecidableEq, Repr

/-- Environment for the parsers of types.go: the outcomes of the
external `strconv.Atoi` and `ioutil.ReadFile` calls. -/
structure CmdEnv where
  atoi : String → Except String Int
  readFile : String → Except String String

/-- Go slice indexing `args[i]` on a string slice: an out-of-range index
is a runtime panic, modelled as a distinguished error value. -/
def idx (args : List String) (i : Nat) : Except CmdError String :=
  match args.get? i with
  | some a => .ok a
  | none => .error .panicOutOfRange

/-- Go slice indexing `want[i]` on an int slice, as used by
`checkNArgs`. -/
def idxN (l : List Nat) (i : Nat) : Except CmdError Nat :=
  match l.get? i with
  | some x => .ok x
  | none => .error .panicOutOfRange

/-- Embedding of `checkIntArg` (types.go): an `Atoi` failure is wrapped
into an `ErrArgs` error. -/
def checkIntArg (env : CmdEnv) (arg name : String) : Except CmdError Int :=
  match env.atoi arg with
  | .ok i => .ok i
  | .error e => .error (.badArgs (name ++ " must be an integer: " ++ e))

/-- Embedding of `parseHelpArgs` (types.go). -/
def parseHelpArgs (args : List String) : Except CmdError ParsedValue :=
  if args.length = 0 then .ok .nul
  else do
    let a ← idx args 0
    .ok (.str a)

/-- Embedding of the inline `initRoute` parser of types.go: returns
`args[0]`. -/
def parseInitArgs (args : List String) : Except CmdError ParsedValue := do
  let a ← idx args 0
  .ok (.str a)

/-- Embedding of `parsePreRegisterArgs` (types.go): reads the optional
certificate path `args[1]` when more than one argument is given, then
builds the form from `args[0]`. -/
def parsePreRegisterArgs (env : CmdEnv) (args : List String) :
    Except CmdError ParsedValue := do
  let cert ← if args.length > 1 then do
      let p ← idx args 1
      match env.readFile p with
      | .error e => Except.error (CmdError.other ("error reading " ++ p ++ ": " ++ e))
      | .ok c => Except.ok c
    else Except.ok ""
  let url ← idx args 0
  .ok (.preRegister ⟨url, cert⟩)

/-- Embedding of `parseNewWalletArgs` (types.go): `args[2]` is the asset
identifier (converted to uint32 by wrapping), the remaining positions
fill the form. -/
def parseNewWalletArgs (env : CmdEnv) (args : List String) :
    Except CmdError ParsedValue := do
  let a2 ← idx args 2
  let assetID ← checkIntArg env a2 "assetID"
  let a0 ← idx args 0
  let a1 ← idx args 1
  let a3 ← idx args 3
  let a4 ← idx args 4
  .ok (.newWallet { appPass := a0, walletPass := a1,
                    assetID := (assetID.emod 4294967296).toNat,
                    account := a3, iniPath := a4 })

/-- Embedding of `parseOpenWalletArgs` (types.go). -/
def parseOpenWalletArgs (env : CmdEnv) (args : List String) :
    Except CmdError ParsedValue := do
  let a1 ← idx args 1
  let assetID ← checkIntArg env a1 "assetID"
  let a0 ← idx args 0
  .ok (.openWallet { appPass := a0, assetID := (assetID.emod 4294967296).toNat })

/-- Embedding of the inline `closeWalletRoute` parser of types.go:
`checkIntArg(args[0], "assetID")`. -/
def parseCloseWalletArgs (env : CmdEnv) (args : List String) :
    Except CmdError ParsedValue := do
  let a0 ← idx args 0
  let i ← checkIntArg env a0 "assetID"
  .ok (.int i)

/-- Embedding of `parseRegisterArgs` (types.go): `args[2]` is the fee
(converted to uint64 by wrapping); with four arguments the certificate
file at `args[3]` is read — note the source's read-error message names
`args[1]`, which is kept faithfully. -/
def parseRegisterArgs (env : CmdEnv) (args : List String) :
    Except CmdError ParsedValue := do
  let a2 ← idx args 2
  let fee ← checkIntArg env a2 "fee"
  let cert ← if args.length = 4 then do
      let p ← idx args 3
      let a1 ← idx args 1
      match env.readFile p with
      | .error e => Except.error (CmdError.other ("error reading " ++ a1 ++ ": " ++ e))
      | .ok c => Except.ok c
    else Except.ok ""
  let a0 ← idx args 0
  let a1 ← idx args 1
  .ok (.registration { password := a0, url := a1,
                       fee := (fee.emod 18446744073709551616).toNat, cert := cert })

/-- Modelled from the spec: the route-name constants are declared in the
repository outside the given sources; their exact values are immaterial
to the claims — only that `nArgs` and `parsers` are keyed identically
matters. Help route. -/
def helpRoute : String := "help"

/-- Modelled from the spec: route-name constant. -/
def initRoute : String := "init"

/-- Modelled from the spec: route-name constant. -/
def versionRoute : String := "version"

/-- Modelled from the spec: route-name constant. -/
def preRegisterRoute : String := "preregister"

/-- Modelled from the spec: route-name constant. -/
def newWalletRoute : String := "newwallet"

/-- Modelled from the spec: route-name constant. -/
def openWalletRoute : String := "openwallet"

/-- Modelled from the spec: route-name constant. -/
def closeWalletRoute : String := "closewallet"

/-- Modelled from the spec: route-name constant. -/
def walletsRoute : String := "wallets"

/-- Modelled from the spec: route-name constant. -/
def registerRoute : String := "register"

/-- Embedding of the `nArgs` map of types.go: route to accepted argument
counts, one integer for an exact match, two for min and max. -/
def nArgs : List (String × List Nat) :=
  [(helpRoute, [0, 1]), (initRoute, [1]), (versionRoute, [0]),
   (preRegisterRoute, [1, 2]), (newWalletRoute, [5]), (openWalletRoute, [2]),
   (closeWalletRoute, [1]), (walletsRoute, [0]), (registerRoute, [3, 4])]

/-- Embedding of the `parsers` map of types.go: route to parsing
function (the `versionRoute` and `walletsRoute` entries are the inline
functions returning nil). -/
def parsers (env : CmdEnv) :
    List (String × (List String → Except CmdError ParsedValue)) :=
  [(helpRoute, parseHelpArgs), (initRoute, parseInitArgs),
   (versionRoute, fun _ => .ok .nul), (preRegisterRoute, parsePreRegisterArgs env),
   (newWalletRoute, parseNewWalletArgs env), (openWalletRoute, parseOpenWalletArgs env),
   (closeWalletRoute, parseCloseWalletArgs env),
   (walletsRoute, fun _ => .ok .nul), (registerRoute, parseRegisterArgs env)]

/-- Embedding of `checkNArgs` (types.go): one wanted count means an exact
match, two mean a minimum and a maximum; the slice accesses `want[0]` and
`want[1]` are Go indexing. -/
def checkNArgs (haveN : Nat) (want : List Nat) : Except CmdError Unit :=
  if want.length = 1 then do
    let w0 ← idxN want 0
    if w0 ≠ haveN then
      Except.error (.badArgs ("wanted " ++ toString w0 ++ " but got " ++ toString haveN))
    else Except.ok ()
  else do
    let w0 ← idxN want 0
    let w1 ← idxN want 1
    if haveN < w0 ∨ haveN > w1 then
      Except.error (.badArgs ("wanted between " ++ toString w0 ++ " and "
        ++ toString w1 ++ " but got " ++ toString haveN))
    else Except.ok ()

/-- Embedding of `ParseCmdArgs` (types.go): unknown commands and
argument-count violations are rejected before the per-command parser is
fetched and invoked. -/
def ParseCmdArgs (env : CmdEnv) (cmd : String) (args : List String) :
    Except CmdError ParsedValue :=
  match nArgs.lookup cmd with
  | none => .error (.unknownCmd ("unknown command: " ++ cmd))
  | some nArg =>
    match checkNArgs args.length nArg with
    | .error e => .error e
    | .ok _ =>
      match (parsers env).lookup cmd with
      | none => .error .panicNilHandler
      | some p => p args

/-- True when a parsing outcome is one of the modelled Go runtime
panics. -/
def isPanic : Except CmdError ParsedValue → Bool
  | .error .panicOutOfRange => true
  | .error .panicNilHandler => true
  | _ => false

/-- A fixture environment for the command parsers. -/
def cmdEnv0 : CmdEnv := { atoi := fun _ => .ok 0, readFile := fun _ => .ok "" }

/-- A fixture read pump state with one pending request. -/
def pump0 : PumpState := { pending := [(5, 1)], delivered := [], invoked := [] }

/-- Helper: for a Request-typed envelope with a nonzero identifier, the
HTTP path always wraps the `handleRequest` payload into a single Response
envelope carrying the request identifier. -/
theorem handleJSON_request_eq (routes : RouteTable) (s : RPCServerState) (m : Message)
    (htyp : m.typ = MsgType.request) (hid : m.id ≠ 0) :
    handleJSON routes s (Body.msg m) =
      HTTPReply.jsonResponse ⟨MsgType.response, m.id, "",
        MsgPayload.resp (handleRequest routes s m)⟩ := by
  simp [handleJSON, htyp, parseHTTPRequest, NewResponse, hid]

/-- C1: for every HTTP POST body that decodes to a Request-type envelope
(nonzero identifier) with a route known to the route table and parameters
that decode, the gateway writes exactly one Response envelope whose
identifier equals the request identifier and whose payload is the
handler's outcome, carrying either a result or a business-logic error but
never both. -/
theorem valid_request_one_response (routes : RouteTable) (s : RPCServerState)
    (m : Message) (h : Handler) (p : RawParams)
    (htyp : m.typ = MsgType.request) (hid : m.id ≠ 0) (hroute : m.route ≠ "")
    (hknown : routes m.route = some h) (hparams : decodeParams m.payload = some p) :
    handleJSON routes s (Body.msg m) =
      HTTPReply.jsonResponse ⟨MsgType.response, m.id, "",
        MsgPayload.resp (payloadOfOutcome (h s p))⟩
    ∧ exactlyOneSet (payloadOfOutcome (h s p)) := by
  constructor
  · rw [handleJSON_request_eq routes s m htyp hid]
    simp [handleRequest, hroute, hknown, hparams]
  · cases hsp : h s p with
    | ok r => left; simp [payloadOfOutcome]
    | error e => right; simp [payloadOfOutcome]

/-- Witness for C1 at a concrete request on the version route. -/
theorem valid_request_one_response_witness :
    handleJSON routes0 server0
        (Body.msg ⟨MsgType.request, 1, "version", MsgPayload.raw (RawJSON.params ⟨[]⟩)⟩) =
      HTTPReply.jsonResponse ⟨MsgType.response, 1, "",
        MsgPayload.resp (payloadOfOutcome (versionHandler server0 ⟨[]⟩))⟩
    ∧ exactlyOneSet (payloadOfOutcome (versionHandler server0 ⟨[]⟩)) :=
  valid_request_one_response routes0 server0
    ⟨MsgType.request, 1, "version", MsgPayload.raw (RawJSON.params ⟨[]⟩)⟩
    versionHandler ⟨[]⟩ rfl (by decide) (by decide) rfl rfl

/-- C2: for every request envelope whose route is empty or not in the
route table, `handleRequest` returns a payload whose error carries the
unknown-route code and whose result is absent, and the HTTP path wraps
this same structured payload into a Response envelope (not an
HTTP-transport error). -/
theorem unknown_route_error (routes : RouteTable) (s : RPCServerState) (m : Message)
    (hu : m.route = "" ∨ routes m.route = none) :
    (handleRequest routes s m).result = none
    ∧ (∃ e, (handleRequest routes s m).error = some e ∧ e.code = RPCUnknownRoute)
    ∧ (m.typ = MsgType.request → m.id ≠ 0 →
        handleJSON routes s (Body.msg m) =
          HTTPReply.jsonResponse ⟨MsgType.response, m.id, "",
            MsgPayload.resp (handleRequest routes s m)⟩) := by
  refine ⟨?_, ?_, fun htyp hid => handleJSON_request_eq routes s m htyp hid⟩
  · rcases hu with hu | hu
    · simp [handleRequest, hu]
    · by_cases he : m.route = ""
      · simp [handleRequest, he]
      · simp [handleRequest, he, hu]
  · rcases hu with hu | hu
    · exact ⟨newError RPCUnknownRoute "no route was supplied", by simp [handleRequest, hu], rfl⟩
    · by_cases he : m.route = ""
      · exact ⟨newError RPCUnknownRoute "no route was supplied", by simp [handleRequest, he], rfl⟩
      · exact ⟨newError RPCUnknownRoute "unknown command", by simp [handleRequest, he, hu], rfl⟩

/-- Witness for C2 at a concrete request with an unknown route. -/
theorem unknown_route_error_witness :
    (handleRequest routes0 server0
        ⟨MsgType.request, 7, "bogus", MsgPayload.raw RawJSON.undecodable⟩).result = none
    ∧ (∃ e, (handleRequest routes0 server0
        ⟨MsgType.request, 7, "bogus", MsgPayload.raw RawJSON.undecodable⟩).error = some e
        ∧ e.code = RPCUnknownRoute)
    ∧ (MsgType.request = MsgType.request → (7 : Nat) ≠ 0 →
        handleJSON routes0 server0
            (Body.msg ⟨MsgType.request, 7, "bogus", MsgPayload.raw RawJSON.undecodable⟩) =
          HTTPReply.jsonResponse ⟨MsgType.response, 7, "",
            MsgPayload.resp (handleRequest routes0 server0
              ⟨MsgType.request, 7, "bogus", MsgPayload.raw RawJSON.undecodable⟩)⟩) :=
  unknown_route_error routes0 server0
    ⟨MsgType.request, 7, "bogus", MsgPayload.raw RawJSON.undecodable⟩ (Or.inr rfl)

/-- C3 counterexample: a request body that is not a well-formed envelope
is answered with an HTTP 422 transport error, not a structured error
Response, contradicting the claim that every gateway protocol error
yields a structured Response. -/
theorem malformed_body_transport_error :
    handleJSON routes0 server0 Body.notJSON = HTTPReply.httpError 422 "JSON decode error"
    ∧ isStructuredResponse (handleJSON routes0 server0 Body.notJSON) = false :=
  ⟨rfl, rfl⟩

/-- C3 (amended): unknown routes and parameter-decode failures on
Request-typed envelopes with nonzero identifiers always produce a
structured error Response on the HTTP path, but a body that fails to
read, a body that is not a well-formed envelope, and a non-Request
envelope type are rejected with HTTP transport errors (400, 422, 405
respectively), not structured Responses. -/
theorem protocol_error_replies (routes : RouteTable) (s : RPCServerState) :
    handleJSON routes s Body.unreadable = HTTPReply.httpError 400 "error reading request body"
    ∧ handleJSON routes s Body.notJSON = HTTPReply.httpError 422 "JSON decode error"
    ∧ (∀ m : Message, m.typ ≠ MsgType.request →
        handleJSON routes s (Body.msg m) = HTTPReply.httpError 405 "Responses not accepted")
    ∧ (∀ m : Message, m.typ = MsgType.request → m.id ≠ 0 →
        isStructuredResponse (handleJSON routes s (Body.msg m)) = true) := by
  refine ⟨rfl, rfl, ?_, ?_⟩
  · intro m hm
    simp [handleJSON, hm]
  · intro m htyp hid
    rw [handleJSON_request_eq routes s m htyp hid]
    rfl

/-- Witness for the amended C3 at a concrete undecodable-parameter
request. -/
theorem protocol_error_replies_witness :
    isStructuredResponse (handleJSON routes0 server0
      (Body.msg ⟨MsgType.request, 3, "nope", MsgPayload.raw RawJSON.undecodable⟩)) = true :=
  (protocol_error_replies routes0 server0).2.2.2
    ⟨MsgType.request, 3, "nope", MsgPayload.raw RawJSON.undecodable⟩ rfl (by decide)

/-- Helper: with the zero digest stored, no request is ever admitted,
since no header hashes to the zero digest. -/
theorem authMiddleware_zero (hdr : List String) :
    authMiddleware Hash.zero hdr = AuthResult.unauthorized := by
  cases hdr with
  | nil => rfl
  | cons a t => simp [authMiddleware]

/-- C4 counterexample: with no credential pair configured and a valid
certificate pair on disk, `New` succeeds — it does not fail with a
startup-time configuration error as the claim states. -/
theorem new_no_creds_succeeds :
    (New envAllOk cfgNoCreds).1 = .ok { addr := "addr", authsha := Hash.zero } := rfl

/-- C4 (amended): `New` does not fail when no credential pair is
configured; instead any server it constructs under such a configuration
carries the zero auth digest, and `authMiddleware` then rejects every
request, so the absence of credentials is not a runtime authentication
bypass — but neither is it a startup-time configuration error. -/
theorem new_no_creds_zero_authsha (env : NewEnv) (cfg : Config) (s : RPCServerState)
    (hcred : cfg.user = "" ∨ cfg.pass = "")
    (hok : (New env cfg).1 = .ok s) :
    s.authsha = Hash.zero
    ∧ ∀ hdr : List String, authMiddleware s.authsha hdr = AuthResult.unauthorized := by
  have hsha : s.authsha = Hash.zero := by
    have hb : (cfg.user != "" && cfg.pass != "") = false := by
      rcases hcred with h | h <;> simp [h]
    cases hk : env.fileExists cfg.key <;> cases hc : env.fileExists cfg.cert <;>
      cases hg : env.newTLSCertPairOk <;> cases hwc : env.writeCertOk <;>
        cases hwk : env.writeKeyOk <;> cases hl : env.loadKeyPairOk <;>
          simp [New, genCertPair, hk, hc, hg, hwc, hwk, hl, hb] at hok <;>
            simp [← hok]
  exact ⟨hsha, fun hdr => hsha ▸ authMiddleware_zero hdr⟩

/-- Witness for the amended C4 at the concrete credential-free
configuration. -/
theorem new_no_creds_zero_authsha_witness :
    (RPCServerState.mk "addr" Hash.zero).authsha = Hash.zero
    ∧ ∀ hdr : List String,
        authMiddleware (RPCServerState.mk "addr" Hash.zero).authsha hdr =
          AuthResult.unauthorized :=
  new_no_creds_zero_authsha envAllOk cfgNoCreds _ (Or.inl rfl) rfl

/-- C5 counterexample: when neither file exists, the generated pair is
not written entirely with owner-only permissions as the claim states —
the certificate file is written with mode 644 (group- and
world-readable); only the key file is owner-only. -/
theorem gen_cert_not_owner_only :
    (New envNoFiles cfgNoCreds).2 = [⟨"c", 0o644⟩, ⟨"k", 0o600⟩]
    ∧ ownerOnly 0o644 = false ∧ ownerOnly 0o600 = true :=
  ⟨rfl, rfl, rfl⟩

/-- C5 (amended): at construction, if both certificate and key files
exist nothing is generated and the pair is loaded (construction succeeds
exactly when loading does); if neither exists a self-signed
elliptic-curve pair is generated, the key written owner-only (600) but
the certificate world-readable (644); if exactly one file exists, `New`
returns a fatal configuration error and writes nothing. -/
theorem new_cert_bootstrap (env : NewEnv) (cfg : Config) :
    (env.fileExists cfg.cert = true → env.fileExists cfg.key = true →
      (New env cfg).2 = [] ∧ (New env cfg).1.isOk = env.loadKeyPairOk)
    ∧ (env.fileExists cfg.cert = false → env.fileExists cfg.key = false →
        env.newTLSCertPairOk = true → env.writeCertOk = true → env.writeKeyOk = true →
        (New env cfg).2 = [⟨cfg.cert, 0o644⟩, ⟨cfg.key, 0o600⟩]
        ∧ ownerOnly 0o600 = true ∧ ownerOnly 0o644 = false ∧ certCurve = "P521")
    ∧ (env.fileExists cfg.cert ≠ env.fileExists cfg.key →
        (New env cfg).1 = .error "missing cert pair file" ∧ (New env cfg).2 = []) := by
  refine ⟨?_, ?_, ?_⟩
  · intro hc hk
    cases hload : env.loadKeyPairOk <;>
      simp [New, hc, hk, hload, Except.isOk, Except.toBool]
  · intro hc hk hgen hwc hwk
    have hw : (New env cfg).2 = [⟨cfg.cert, 0o644⟩, ⟨cfg.key, 0o600⟩] := by
      cases hload : env.loadKeyPairOk <;>
        simp [New, hc, hk, genCertPair, hgen, hwc, hwk, hload]
    exact ⟨hw, by decide, by decide, rfl⟩
  · intro hne
    cases hc : env.fileExists cfg.cert <;> cases hk : env.fileExists cfg.key <;>
      simp [hc, hk] at hne ⊢ <;> simp [New, hc, hk]

/-- Witness for the amended C5 in the neither-file-exists case. -/
theorem new_cert_bootstrap_witness :
    (New envNoFiles cfgNoCreds).2 = [⟨"c", 0o644⟩, ⟨"k", 0o600⟩]
    ∧ ownerOnly 0o600 = true ∧ ownerOnly 0o644 = false ∧ certCurve = "P521" :=
  (new_cert_bootstrap envNoFiles cfgNoCreds).2.1 rfl rfl rfl rfl rfl

/-- Helper: the syncer loop body never releases the feed — the close
count it returns is the one it was given. -/
theorem syncLoop_closes : ∀ (evs : List SyncEvent) (c : Nat) (r : TermReason) (c2 : Nat),
    syncLoop evs c = some (r, c2) → c2 = c := by
  intro evs
  induction evs with
  | nil => intro c r c2 h; simp [syncLoop] at h
  | cons e rest ih =>
    intro c r c2 h
    cases e with
    | ctxDone =>
      simp [syncLoop] at h
      omega
    | update eo so =>
      cases eo <;> cases so <;> simp [syncLoop] at h
      · omega
      · omega
      · omega
      · exact ih c r c2 h

/-- C6: every terminating run of the market syncer — whatever the
terminal case (notification-encoding failure, send failure to the
client, or governing-context cancellation) — releases the feed
subscription exactly once, through the deferred close that runs when the
function returns rather than a per-branch call. -/
theorem syncer_closes_once (evs : List SyncEvent) (o : SyncOutcome)
    (h : marketSyncerRun evs = some o) : o.feedCloses = 1 := by
  unfold marketSyncerRun at h
  cases hl : syncLoop evs 0 with
  | none => rw [hl] at h; simp at h
  | some rc =>
    rw [hl] at h
    rcases rc with ⟨r, c⟩
    have hc : c = 0 := syncLoop_closes evs 0 r c hl
    simp at h
    rw [← h]
    simp [hc]

/-- Witness for C6 at a concrete run terminated by cancellation. -/
theorem syncer_closes_once_witness :
    marketSyncerRun [SyncEvent.update true true, SyncEvent.ctxDone] =
      some ⟨TermReason.shutdown, 1⟩
    ∧ (SyncOutcome.mk TermReason.shutdown 1).feedCloses = 1 :=
  ⟨rfl, syncer_closes_once [SyncEvent.update true true, SyncEvent.ctxDone]
    ⟨TermReason.shutdown, 1⟩ rfl⟩

/-- Helper: the invariant of the `Run` cancellation path holds in every
reachable state. -/
theorem runInvariant_holds (n m : Nat) (s : RunState)
    (h : RunReachable (initRunState n m) s) : runInvariant n s := by
  induction h with
  | refl => simp [initRunState, runInvariant]
  | step hr hs ih =>
    rcases ih with ⟨i1, i2, i3, i4, i5, i6⟩
    cases hs with
    | cancel h1 =>
      exact ⟨i1, fun _ => rfl, i3, i4, i5, i6⟩
    | closeListener h1 h2 =>
      exact ⟨i1, fun _ => h1, fun _ => rfl, i4, i5, i6⟩
    | serveReturn h1 h2 =>
      exact ⟨i1, i2, fun _ => h1, fun _ => rfl,
        fun hw => ⟨rfl, (i5 hw).2.1, (i5 hw).2.2⟩, i6⟩
    | disconnect h1 h2 h3 =>
      refine ⟨by simp; omega, i2, i3, fun _ => h1, ?_, i6⟩
      intro hw
      exact absurd hw (by simp [h3])
    | syncerExit h1 =>
      refine ⟨i1, i2, i3, i4, ?_, i6⟩
      intro hw
      have h5 := i5 hw
      have h52 := h5.2.2
      exact ⟨h5.1, h5.2.1, by simp; omega⟩
    | wait h1 h2 h3 h4 h5 =>
      exact ⟨i1, i2, i3, i4, fun _ => ⟨h1, h2, h3⟩, fun _ => rfl⟩
    | report h1 h2 =>
      exact ⟨i1, i2, i3, i4, i5, fun _ => h1⟩

/-- C7: on the cancellation path of `Run`, in every reachable state, the
listener has been closed only after cancellation, `Serve` has returned
only after the listener was closed, a client session has been
force-disconnected only after `Serve` returned, and the server-off
report has been made only after the wait-group join completed — which
itself required every tracked client disconnected and every spawned
syncer goroutine exited. -/
theorem run_shutdown_order (n m : Nat) (s : RunState)
    (h : RunReachable (initRunState n m) s) :
    (s.listenerClosed = true → s.ctxCancelled = true)
    ∧ (s.serveReturned = true → s.listenerClosed = true)
    ∧ (0 < s.clientsDisconnected → s.serveReturned = true)
    ∧ (s.reported = true →
        s.waited = true ∧ s.clientsDisconnected = n ∧ s.syncersLeft = 0) := by
  have hi := runInvariant_holds n m s h
  rcases hi with ⟨i1, i2, i3, i4, i5, i6⟩
  refine ⟨i2, i3, i4, fun hr => ⟨i6 hr, ?_, (i5 (i6 hr)).2.2⟩⟩
  have := (i5 (i6 hr)).2.1
  omega

/-- Witness for C7 at a complete concrete shutdown with one client and
one syncer. -/
theorem run_shutdown_order_witness :
    (runFinalState.listenerClosed = true → runFinalState.ctxCancelled = true)
    ∧ (runFinalState.serveReturned = true → runFinalState.listenerClosed = true)
    ∧ (0 < runFinalState.clientsDisconnected → runFinalState.serveReturned = true)
    ∧ (runFinalState.reported = true →
        runFinalState.waited = true ∧ runFinalState.clientsDisconnected = 1
        ∧ runFinalState.syncersLeft = 0) := by
  refine run_shutdown_order 1 1 runFinalState ?_
  have h0 : RunReachable (initRunState 1 1) (initRunState 1 1) := RunReachable.refl
  have h1 := RunReachable.step h0 (RunStep.cancel _ rfl)
  have h2 := RunReachable.step h1 (RunStep.closeListener _ rfl rfl)
  have h3 := RunReachable.step h2 (RunStep.serveReturn _ rfl rfl)
  have h4 := RunReachable.step h3 (RunStep.disconnect _ rfl (by decide) rfl)
  have h5 := RunReachable.step h4 (RunStep.syncerExit _ (by decide))
  have h6 := RunReachable.step h5 (RunStep.wait _ rfl rfl rfl rfl rfl)
  have h7 := RunReachable.step h6 (RunStep.report _ rfl rfl)
  exact h7

/-- Helper: a run of malformed frames leaves the pump state unchanged. -/
theorem readPump_malformed (st : PumpState) (junk : List Frame)
    (hj : ∀ f ∈ junk, f = Frame.malformed) : readPump st junk = st := by
  induction junk with
  | nil => rfl
  | cons f rest ih =>
    have hf : f = Frame.malformed := hj f (List.mem_cons_self f rest)
    subst hf
    exact ih (fun g hg => hj g (List.mem_cons_of_mem _ hg))

/-- Helper: message-source deliveries only grow as the pump runs. -/
theorem readPump_delivered_mono (frames : List Frame) (st : PumpState)
    (x : String × String) (hx : x ∈ st.delivered) :
    x ∈ (readPump st frames).delivered := by
  induction frames generalizing st with
  | nil => exact hx
  | cons f rest ih =>
    refine ih (readFrame st f) ?_
    cases f with
    | malformed => exact hx
    | response id body =>
      cases hl : st.pending.lookup id with
      | some h => simpa [readFrame, hl] using hx
      | none => simpa [readFrame, hl] using hx
    | reqOrNote route body => simp [readFrame, hx]

/-- Helper: handler invocations only grow as the pump runs. -/
theorem readPump_invoked_mono (frames : List Frame) (st : PumpState)
    (x : Nat × String) (hx : x ∈ st.invoked) :
    x ∈ (readPump st frames).invoked := by
  induction frames generalizing st with
  | nil => exact hx
  | cons f rest ih =>
    refine ih (readFrame st f) ?_
    cases f with
    | malformed => exact hx
    | response id body =>
      cases hl : st.pending.lookup id with
      | some h => simp [readFrame, hl, hx]
      | none => simpa [readFrame, hl] using hx
    | reqOrNote route body => simpa [readFrame] using hx

/-- C8: on an established connection, a run of frames that fail to parse
is dropped without terminating the pump, and a subsequent well-formed
frame is still received and delivered: a Request/Notification frame
reaches the message-source stream, and a Response frame matching a
pending request reaches its registered handler. -/
theorem malformed_frames_recoverable (st : PumpState) (junk rest : List Frame)
    (hj : ∀ f ∈ junk, f = Frame.malformed) :
    (∀ route body, (route, body) ∈
        (readPump st (junk ++ Frame.reqOrNote route body :: rest)).delivered)
    ∧ (∀ id h body, st.pending.lookup id = some h → (h, body) ∈
        (readPump st (junk ++ Frame.response id body :: rest)).invoked) := by
  have h1 : readPump st junk = st := readPump_malformed st junk hj
  constructor
  · intro route body
    have h2 : readPump st (junk ++ Frame.reqOrNote route body :: rest)
        = readPump (readFrame st (Frame.reqOrNote route body)) rest := by
      show List.foldl readFrame st (junk ++ _ :: rest) = _
      rw [List.foldl_append, show List.foldl readFrame st junk = st from h1]
      rfl
    rw [h2]
    apply readPump_delivered_mono
    simp [readFrame]
  · intro id h body hpend
    have h2 : readPump st (junk ++ Frame.response id body :: rest)
        = readPump (readFrame st (Frame.response id body)) rest := by
      show List.foldl readFrame st (junk ++ _ :: rest) = _
      rw [List.foldl_append, show List.foldl readFrame st junk = st from h1]
      rfl
    rw [h2]
    apply readPump_invoked_mono
    simp [readFrame, hpend]

/-- Witness for C8: after a malformed frame, a notification is still
delivered and a matching response still reaches its handler. -/
theorem malformed_frames_recoverable_witness :
    ("order_book", "payload") ∈
      (readPump pump0 [Frame.malformed, Frame.reqOrNote "order_book" "payload"]).delivered
    ∧ (1, "resp") ∈
      (readPump pump0 [Frame.malformed, Frame.response 5 "resp"]).invoked :=
  ⟨(malformed_frames_recoverable pump0 [Frame.malformed] []
      (by intro f hf; simpa using hf)).1 "order_book" "payload",
   (malformed_frames_recoverable pump0 [Frame.malformed] []
      (by intro f hf; simpa using hf)).2 5 1 "resp" rfl⟩

/-- Helper: the length of the identifier run. -/
theorem runNextID_length (n : Nat) : ∀ c, (runNextID c n).length = n := by
  induction n with
  | zero => intro c; rfl
  | succ n ih => intro c; simp [runNextID, ih]

/-- Helper: every identifier returned by n calls from counter c lies
strictly above c and at most c + n. -/
theorem runNextID_mem (n : Nat) : ∀ c x, x ∈ runNextID c n → c < x ∧ x ≤ c + n := by
  induction n with
  | zero => intro c x hx; simp [runNextID] at hx
  | succ n ih =>
    intro c x hx
    simp only [runNextID, nextID, List.mem_cons] at hx
    rcases hx with hx | hx
    · omega
    · have := ih (c + 1) x hx
      omega

/-- Helper: the identifiers are returned in strictly increasing order. -/
theorem runNextID_pairwise (n : Nat) : ∀ c, (runNextID c n).Pairwise (· < ·) := by
  induction n with
  | zero => intro c; simp [runNextID]
  | succ n ih =>
    intro c
    exact List.Pairwise.cons (fun x hx => (runNextID_mem n (c + 1) x hx).1) (ih (c + 1))

/-- C9: the identifier generator is a process-local strictly increasing
counter starting at 1: any N calls return N identifiers, pairwise
strictly increasing and hence distinct, none of them 0, and the first
two calls return 1 and 2. -/
theorem nextID_distinct_nonzero (n : Nat) :
    (runNextID 0 n).length = n
    ∧ (runNextID 0 n).Pairwise (· < ·)
    ∧ (runNextID 0 n).Nodup
    ∧ (∀ x, x ∈ runNextID 0 n → x ≠ 0)
    ∧ runNextID 0 2 = [1, 2] := by
  refine ⟨runNextID_length n 0, runNextID_pairwise n 0, ?_, ?_, rfl⟩
  · exact (runNextID_pairwise n 0).imp (fun h => Nat.ne_of_lt h)
  · intro x hx
    have := (runNextID_mem n 0 x hx).1
    omega

/-- Witness for C9 at three calls. -/
theorem nextID_distinct_nonzero_witness :
    (runNextID 0 3).length = 3 ∧ runNextID 0 2 = [1, 2] :=
  ⟨(nextID_distinct_nonzero 3).1, (nextID_distinct_nonzero 3).2.2.2.2⟩

/-- Helper: indexing below the length never panics. -/
theorem idx_ok (args : List String) (i : Nat) (h : i < args.length) :
    ∃ a, idx args i = .ok a :=
  ⟨args[i], by simp [idx, List.getElem?_eq_getElem h]⟩

/-- Helper: the help parser never panics. -/
theorem parseHelpArgs_no_panic (args : List String) :
    isPanic (parseHelpArgs args) = false := by
  by_cases h : args.length = 0
  · simp [parseHelpArgs, h, isPanic]
  · obtain ⟨a, ha⟩ := idx_ok args 0 (by omega)
    simp [parseHelpArgs, h, ha, bind, Except.bind, isPanic]

/-- Helper: the init parser never panics on a nonempty argument list. -/
theorem parseInitArgs_no_panic (args : List String) (h : 0 < args.length) :
    isPanic (parseInitArgs args) = false := by
  obtain ⟨a, ha⟩ := idx_ok args 0 h
  simp [parseInitArgs, ha, bind, Except.bind, isPanic]

/-- Helper: the preregister parser never panics on a nonempty argument
list. -/
theorem parsePreRegisterArgs_no_panic (env : CmdEnv) (args : List String)
    (h : 0 < args.length) : isPanic (parsePreRegisterArgs env args) = false := by
  obtain ⟨a0, h0⟩ := idx_ok args 0 h
  by_cases h1 : args.length > 1
  · obtain ⟨a1, ha1⟩ := idx_ok args 1 h1
    cases hr : env.readFile a1 with
    | ok c => simp [parsePreRegisterArgs, h1, ha1, hr, h0, bind, Except.bind, isPanic]
    | error e => simp [parsePreRegisterArgs, h1, ha1, hr, h0, bind, Except.bind, isPanic]
  · simp [parsePreRegisterArgs, h1, h0, bind, Except.bind, isPanic]

/-- Helper: the new-wallet parser never panics on five arguments. -/
theorem parseNewWalletArgs_no_panic (env : CmdEnv) (args : List String)
    (h : args.length = 5) : isPanic (parseNewWalletArgs env args) = false := by
  obtain ⟨a2, h2⟩ := idx_ok args 2 (by omega)
  obtain ⟨a0, h0⟩ := idx_ok args 0 (by omega)
  obtain ⟨a1, h1⟩ := idx_ok args 1 (by omega)
  obtain ⟨a3, h3⟩ := idx_ok args 3 (by omega)
  obtain ⟨a4, h4⟩ := idx_ok args 4 (by omega)
  cases hA : env.atoi a2 with
  | ok i =>
    simp [parseNewWalletArgs, h0, h1, h2, h3, h4, checkIntArg, hA, bind, Except.bind, isPanic]
  | error e =>
    simp [parseNewWalletArgs, h2, checkIntArg, hA, bind, Except.bind, isPanic]

/-- Helper: the open-wallet parser never panics on two arguments. -/
theorem parseOpenWalletArgs_no_panic (env : CmdEnv) (args : List String)
    (h : args.length = 2) : isPanic (parseOpenWalletArgs env args) = false := by
  obtain ⟨a1, h1⟩ := idx_ok args 1 (by omega)
  obtain ⟨a0, h0⟩ := idx_ok args 0 (by omega)
  cases hA : env.atoi a1 with
  | ok i => simp [parseOpenWalletArgs, h0, h1, checkIntArg, hA, bind, Except.bind, isPanic]
  | error e => simp [parseOpenWalletArgs, h1, checkIntArg, hA, bind, Except.bind, isPanic]

/-- Helper: the close-wallet parser never panics on a nonempty argument
list. -/
theorem parseCloseWalletArgs_no_panic (env : CmdEnv) (args : List String)
    (h : 0 < args.length) : isPanic (parseCloseWalletArgs env args) = false := by
  obtain ⟨a0, h0⟩ := idx_ok args 0 h
  cases hA : env.atoi a0 with
  | ok i => simp [parseCloseWalletArgs, h0, checkIntArg, hA, bind, Except.bind, isPanic]
  | error e => simp [parseCloseWalletArgs, h0, checkIntArg, hA, bind, Except.bind, isPanic]

/-- Helper: the register parser never panics on three or four
arguments. -/
theorem parseRegisterArgs_no_panic (env : CmdEnv) (args : List String)
    (h : args.length = 3 ∨ args.length = 4) :
    isPanic (parseRegisterArgs env args) = false := by
  obtain ⟨a2, h2⟩ := idx_ok args 2 (by omega)
  obtain ⟨a0, h0⟩ := idx_ok args 0 (by omega)
  obtain ⟨a1, h1⟩ := idx_ok args 1 (by omega)
  cases hA : env.atoi a2 with
  | error e => simp [parseRegisterArgs, h2, checkIntArg, hA, bind, Except.bind, isPanic]
  | ok i =>
    by_cases h4 : args.length = 4
    · obtain ⟨a3, h3⟩ := idx_ok args 3 (by omega)
      cases hr : env.readFile a3 with
      | ok c =>
        simp [parseRegisterArgs, h0, h1, h2, h3, h4, hr, checkIntArg, hA,
          bind, Except.bind, isPanic]
      | error e =>
        simp [parseRegisterArgs, h1, h2, h3, h4, hr, checkIntArg, hA,
          bind, Except.bind, isPanic]
    · simp [parseRegisterArgs, h0, h1, h2, h4, checkIntArg, hA, bind, Except.bind, isPanic]

/-- Helper: an exact-match count check passes only at the exact count. -/
theorem checkNArgs_single_ok (haveN w0 : Nat) (h : checkNArgs haveN [w0] = .ok ()) :
    haveN = w0 := by
  by_cases hc : w0 ≠ haveN
  · simp [checkNArgs, idxN, bind, Except.bind, hc] at h
  · omega

/-- Helper: an interval count check passes only inside the interval. -/
theorem checkNArgs_pair_ok (haveN w0 w1 : Nat) (h : checkNArgs haveN [w0, w1] = .ok ()) :
    w0 ≤ haveN ∧ haveN ≤ w1 := by
  by_cases hc : haveN < w0 ∨ haveN > w1
  · simp [checkNArgs, idxN, bind, Except.bind, hc] at h
  · omega

/-- Helper: on the one- and two-element count constraints of the `nArgs`
table, a failed count check is always a wrapped argument error, never a
panic. -/
theorem checkNArgs_err_shape (haveN : Nat) (w : List Nat)
    (hw : w.length = 1 ∨ w.length = 2) (e : CmdError)
    (h : checkNArgs haveN w = .error e) : ∃ m, e = CmdError.badArgs m := by
  rcases hw with h1 | h2
  · obtain ⟨w0, rfl⟩ : ∃ w0, w = [w0] := by
      cases w with
      | nil => simp at h1
      | cons a t =>
        cases t with
        | nil => exact ⟨a, rfl⟩
        | cons b t2 => simp at h1
    by_cases hc : w0 ≠ haveN
    · simp [checkNArgs, idxN, bind, Except.bind, hc] at h
      exact ⟨_, h.symm⟩
    · simp [checkNArgs, idxN, bind, Except.bind, hc] at h
  · obtain ⟨w0, w1, rfl⟩ : ∃ w0 w1, w = [w0, w1] := by
      cases w with
      | nil => simp at h2
      | cons a t =>
        cases t with
        | nil => simp at h2
        | cons b t2 =>
          cases t2 with
          | nil => exact ⟨a, b, rfl⟩
          | cons c t3 => simp at h2
    by_cases hc : haveN < w0 ∨ haveN > w1
    · simp [checkNArgs, idxN, bind, Except.bind, hc] at h
      exact ⟨_, h.symm⟩
    · simp [checkNArgs, idxN, bind, Except.bind, hc] at h

/-- Helper: unfolding of `ParseCmdArgs` when every gate passes. -/
theorem ParseCmdArgs_eq_of (env : CmdEnv) (cmd : String) (args : List String)
    (w : List Nat) (p : List String → Except CmdError ParsedValue)
    (hw : nArgs.lookup cmd = some w) (hchk : checkNArgs args.length w = .ok ())
    (hp : (parsers env).lookup cmd = some p) :
    ParseCmdArgs env cmd args = p args := by
  simp [ParseCmdArgs, hw, hchk, hp]

/-- Helper: unfolding of `ParseCmdArgs` when the count check fails. -/
theorem ParseCmdArgs_eq_err (env : CmdEnv) (cmd : String) (args : List String)
    (w : List Nat) (e : CmdError)
    (hw : nArgs.lookup cmd = some w) (hchk : checkNArgs args.length w = .error e) :
    ParseCmdArgs env cmd args = .error e := by
  simp [ParseCmdArgs, hw, hchk]

/-- Helper: inversion of the `nArgs` table lookup. -/
theorem nArgs_lookup_cases (cmd : String) (w : List Nat)
    (h : nArgs.lookup cmd = some w) :
    (cmd = helpRoute ∧ w = [0, 1]) ∨ (cmd = initRoute ∧ w = [1])
    ∨ (cmd = versionRoute ∧ w = [0]) ∨ (cmd = preRegisterRoute ∧ w = [1, 2])
    ∨ (cmd = newWalletRoute ∧ w = [5]) ∨ (cmd = openWalletRoute ∧ w = [2])
    ∨ (cmd = closeWalletRoute ∧ w = [1]) ∨ (cmd = walletsRoute ∧ w = [0])
    ∨ (cmd = registerRoute ∧ w = [3, 4]) := by
  simp only [nArgs, List.lookup] at h
  repeat' split at h
  all_goals simp_all [beq_iff_eq]

/-- C10: `ParseCmdArgs` rejects a command absent from the `nArgs` table
with a wrapped unknown-command error, and an argument count outside the
command's exact-or-interval constraint with a wrapped argument error —
in both cases for every environment, so without invoking the command's
parser; and under the count check every parser accesses only in-range
argument indices, so no outcome is ever a runtime panic. -/
theorem parseCmdArgs_safe (env : CmdEnv) (cmd : String) (args : List String) :
    (nArgs.lookup cmd = none →
      ParseCmdArgs env cmd args = .error (.unknownCmd ("unknown command: " ++ cmd)))
    ∧ (∀ w, nArgs.lookup cmd = some w → (checkNArgs args.length w).isOk = false →
        ∃ m, ParseCmdArgs env cmd args = .error (.badArgs m))
    ∧ isPanic (ParseCmdArgs env cmd args) = false := by
  refine ⟨?_, ?_, ?_⟩
  · intro h
    simp [ParseCmdArgs, h]
  · intro w hw hnotok
    have hshape : w.length = 1 ∨ w.length = 2 := by
      rcases nArgs_lookup_cases cmd w hw with hc | hc | hc | hc | hc | hc | hc | hc | hc <;>
        rcases hc with ⟨_, rfl⟩ <;> simp
    cases hchk : checkNArgs args.length w with
    | ok u =>
      rw [hchk] at hnotok
      cases u
      simp [Except.isOk, Except.toBool] at hnotok
    | error e =>
      obtain ⟨m, rfl⟩ := checkNArgs_err_shape args.length w hshape e hchk
      exact ⟨m, ParseCmdArgs_eq_err env cmd args w _ hw hchk⟩
  · cases hlook : nArgs.lookup cmd with
    | none => simp [ParseCmdArgs, hlook, isPanic]
    | some w =>
      have hpanic : ∀ (e : CmdError) (m : String), e = CmdError.badArgs m →
          isPanic (Except.error e) = false := by
        intro e m he
        subst he
        rfl
      rcases nArgs_lookup_cases cmd w hlook with hc | hc | hc | hc | hc | hc | hc | hc | hc
      · rcases hc with ⟨rfl, rfl⟩
        cases hchk : checkNArgs args.length [0, 1] with
        | ok u =>
          cases u
          rw [ParseCmdArgs_eq_of env helpRoute args [0, 1] parseHelpArgs hlook hchk rfl]
          exact parseHelpArgs_no_panic args
        | error e =>
          obtain ⟨m, rfl⟩ := checkNArgs_err_shape args.length [0, 1] (by simp) e hchk
          rw [ParseCmdArgs_eq_err env helpRoute args [0, 1] _ hlook hchk]
          rfl
      · rcases hc with ⟨rfl, rfl⟩
        cases hchk : checkNArgs args.length [1] with
        | ok u =>
          cases u
          have hlen := checkNArgs_single_ok args.length 1 hchk
          rw [ParseCmdArgs_eq_of env initRoute args [1] parseInitArgs hlook hchk rfl]
          exact parseInitArgs_no_panic args (by omega)
        | error e =>
          obtain ⟨m, rfl⟩ := checkNArgs_err_shape args.length [1] (by simp) e hchk
          rw [ParseCmdArgs_eq_err env initRoute args [1] _ hlook hchk]
          rfl
      · rcases hc with ⟨rfl, rfl⟩
        cases hchk : checkNArgs args.length [0] with
        | ok u =>
          cases u
          rw [ParseCmdArgs_eq_of env versionRoute args [0] (fun _ => .ok .nul) hlook hchk rfl]
          rfl
        | error e =>
          obtain ⟨m, rfl⟩ := checkNArgs_err_shape args.length [0] (by simp) e hchk
          rw [ParseCmdArgs_eq_err env versionRoute args [0] _ hlook hchk]
          rfl
      · rcases hc with ⟨rfl, rfl⟩
        cases hchk : checkNArgs args.length [1, 2] with
        | ok u =>
          cases u
          have hlen := checkNArgs_pair_ok args.length 1 2 hchk
          rw [ParseCmdArgs_eq_of env preRegisterRoute args [1, 2]
            (parsePreRegisterArgs env) hlook hchk rfl]
          exact parsePreRegisterArgs_no_panic env args (by omega)
        | error e =>
          obtain ⟨m, rfl⟩ := checkNArgs_err_shape args.length [1, 2] (by simp) e hchk
          rw [ParseCmdArgs_eq_err env preRegisterRoute args [1, 2] _ hlook hchk]
          rfl
      · rcases hc with ⟨rfl, rfl⟩
        cases hchk : checkNArgs args.length [5] with
        | ok u =>
          cases u
          have hlen := checkNArgs_single_ok args.length 5 hchk
          rw [ParseCmdArgs_eq_of env newWalletRoute args [5]
            (parseNewWalletArgs env) hlook hchk rfl]
          exact parseNewWalletArgs_no_panic env args hlen
        | error e =>
          obtain ⟨m, rfl⟩ := checkNArgs_err_shape args.length [5] (by simp) e hchk
          rw [ParseCmdArgs_eq_err env newWalletRoute args [5] _ hlook hchk]
          rfl
      · rcases hc with ⟨rfl, rfl⟩
        cases hchk : checkNArgs args.length [2] with
        | ok u =>
          cases u
          have hlen := checkNArgs_single_ok args.length 2 hchk
          rw [ParseCmdArgs_eq_of env openWalletRoute args [2]
            (parseOpenWalletArgs env) hlook hchk rfl]
          exact parseOpenWalletArgs_no_panic env args hlen
        | error e =>
          obtain ⟨m, rfl⟩ := checkNArgs_err_shape args.length [2] (by simp) e hchk
          rw [ParseCmdArgs_eq_err env openWalletRoute args [2] _ hlook hchk]
          rfl
      · rcases hc with ⟨rfl, rfl⟩
        cases hchk : checkNArgs args.length [1] with
        | ok u =>
          cases u
          have hlen := checkNArgs_single_ok args.length 1 hchk
          rw [ParseCmdArgs_eq_of env closeWalletRoute args [1]
            (parseCloseWalletArgs env) hlook hchk rfl]
          exact parseCloseWalletArgs_no_panic env args (by omega)
        | error e =>
          obtain ⟨m, rfl⟩ := checkNArgs_err_shape args.length [1] (by simp) e hchk
          rw [ParseCmdArgs_eq_err env closeWalletRoute args [1] _ hlook hchk]
          rfl
      · rcases hc with ⟨rfl, rfl⟩
        cases hchk : checkNArgs args.length [0] with
        | ok u =>
          cases u
          rw [ParseCmdArgs_eq_of env walletsRoute args [0] (fun _ => .ok .nul) hlook hchk rfl]
          rfl
        | error e =>
          obtain ⟨m, rfl⟩ := checkNArgs_err_shape args.length [0] (by simp) e hchk
          rw [ParseCmdArgs_eq_err env walletsRoute args [0] _ hlook hchk]
          rfl
      · rcases hc with ⟨rfl, rfl⟩
        cases hchk : checkNArgs args.length [3, 4] with
        | ok u =>
          cases u
          have hlen := checkNArgs_pair_ok args.length 3 4 hchk
          rw [ParseCmdArgs_eq_of env registerRoute args [3, 4]
            (parseRegisterArgs env) hlook hchk rfl]
          exact parseRegisterArgs_no_panic env args (by omega)
        | error e =>
          obtain ⟨m, rfl⟩ := checkNArgs_err_shape args.length [3, 4] (by simp) e hchk
          rw [ParseCmdArgs_eq_err env registerRoute args [3, 4] _ hlook hchk]
          rfl

/-- Witness for C10: an unknown command is rejected with the wrapped
unknown-command error, and a known command at a valid count does not
panic. -/
theorem parseCmdArgs_safe_witness :
    ParseCmdArgs cmdEnv0 "nope" [] = .error (.unknownCmd ("unknown command: " ++ "nope"))
    ∧ isPanic (ParseCmdArgs cmdEnv0 "init" ["x"]) = false :=
  ⟨(parseCmdArgs_safe cmdEnv0 "nope" []).1 rfl,
   (parseCmdArgs_safe cmdEnv0 "init" ["x"]).2.2⟩

end Rpcserver
